import Mathlib

/-!
# Verification of the collection-version relocation workflow

Shallow embedding of `CollectionVersionMoveViewSet.move_content` from
`galaxy_ng/app/api/v3/viewsets/collection.py` (lines 265–322), together
with the external collaborators it touches (content-unit lookup,
distribution/repository resolution, and the reservation task queue).

The store of collection versions and distributions is read-only for the
coordinator; the task queue is the only state the operation changes, and
both are threaded explicitly through `move_content`.
-/

namespace GalaxyNG

/-- A Pulp-Ansible `CollectionVersion` row: natural key
`(namespace, name, version)` plus its primary key `pk`. -/
structure CollectionVersion where
  pk : Nat
  ns : String
  name : String
  version : String
  deriving Repr, DecidableEq

/-- Modelled from the spec: a Pulp `Repository` (external Repository
Store), reduced to what `move_content` reads — its identity `pk` and
`latest_version().content`, the set of content-unit pks in the current
(latest) repository version. -/
structure Repository where
  pk : Nat
  latestContent : List Nat
  deriving Repr, DecidableEq

/-- An `AnsibleDistribution` row: a `base_path` resolving to a repository
(the Content Locator of the spec). -/
structure AnsibleDistribution where
  base_path : String
  repository : Repository
  deriving Repr, DecidableEq

/-- The read-only store the coordinator queries: collection versions and
distributions. -/
structure Store where
  collectionVersions : List CollectionVersion
  distributions : List AnsibleDistribution
  deriving Repr, DecidableEq

/-- Task names dispatched by the move workflow
(`galaxy_ng.app.tasks.add_content_to_repository` /
`remove_content_from_repository`). -/
inductive TaskName where
  | add_content_to_repository
  | remove_content_from_repository
  deriving Repr, DecidableEq

/-- A job submitted to the reservation task queue: task name, reservation
keys (repository pks, from `locks = [repo]`), and positional args
`(collection_version.pk, repo.pk)`. -/
structure Job where
  task : TaskName
  locks : List Nat
  args : Nat × Nat
  deriving Repr, DecidableEq

/-- A job handle (`Task.id`) returned by the queue at submission time. -/
structure Task where
  id : Nat
  deriving Repr, DecidableEq

/-- The full mutable state visible to the coordinator: the repository
store (read-only for this operation) and the task queue, in submission
order. -/
structure World where
  store : Store
  queue : List Job
  deriving Repr, DecidableEq

/-- Modelled from the spec: `pulpcore.plugin.tasking.enqueue_with_reservation`
(the external Reservation Task Queue) is not under src; per the spec's
Task Queue contract, `submit(jobName, reservationKeys, args)` records a
pending job and returns a job handle immediately, without executing it.
The handle is the job's sequence number in the queue. -/
def enqueue_with_reservation (w : World) (task : TaskName)
    (locks : List Nat) (args : Nat × Nat) : World × Task :=
  ({ w with queue := w.queue ++ [⟨task, locks, args⟩] }, ⟨w.queue.length⟩)

/-- `CollectionVersion.objects.get(namespace=..., name=..., version=...)`:
exact match on the natural key; `none` models `ObjectDoesNotExist`. -/
def getCollectionVersion (s : Store) (ns name version : String) :
    Option CollectionVersion :=
  s.collectionVersions.find? fun cv =>
    cv.ns == ns && cv.name == name && cv.version == version

/-- `AnsibleDistribution.objects.get(base_path=path)`: resolve a path to a
distribution; `none` models `ObjectDoesNotExist`. -/
def getDistribution (s : Store) (path : String) : Option AnsibleDistribution :=
  s.distributions.find? fun d => d.base_path == path

/-- The two exception classes `move_content` raises:
`rest_framework.exceptions.NotFound` and the base `APIException`. -/
inductive ErrKind where
  | notFound
  | apiException
  deriving Repr, DecidableEq

/-- An error response: exception class and human-readable message. -/
structure MoveError where
  kind : ErrKind
  msg : String
  deriving Repr, DecidableEq

/-- Modelled from the spec: the HTTP status each exception class surfaces
as is assigned by the REST framework, not by code under src; the spec's
error taxonomy maps NotFound to 404 and the conflict (`APIException`,
"already found in destination repo") to a 409-class client error. -/
def errHttpStatus : ErrKind → Nat
  | .notFound => 404
  | .apiException => 409

/-- The success response: `Response(data={'add_task_id': ...,
'remove_task_id': ...}, status='202')`, with `data` kept as the ordered
field list so that "exactly these fields" is expressible. -/
structure MoveResponse where
  data : List (String × Nat)
  status : String
  deriving Repr, DecidableEq

/-- `CollectionVersionMoveViewSet._add_content`: enqueue
`add_content_to_repository` with `locks = [repo]` and
`args = (collection_version.pk, repo.pk)`. -/
def _add_content (w : World) (collection_version : CollectionVersion)
    (repo : Repository) : World × Task :=
  enqueue_with_reservation w .add_content_to_repository [repo.pk]
    (collection_version.pk, repo.pk)

/-- `CollectionVersionMoveViewSet._remove_content`: enqueue
`remove_content_from_repository` with `locks = [repo]` and
`args = (collection_version.pk, repo.pk)`. -/
def _remove_content (w : World) (collection_version : CollectionVersion)
    (repo : Repository) : World × Task :=
  enqueue_with_reservation w .remove_content_from_repository [repo.pk]
    (collection_version.pk, repo.pk)

/-- `'-'.join([namespace, name, version])`. -/
def version_str (ns name version : String) : String :=
  ns ++ "-" ++ name ++ "-" ++ version

/-- `CollectionVersionMoveViewSet.move_content`, translated step for step
from the source. Inputs are the URL kwargs; the result is the raised
exception or the 202 response, paired with the world after the call. The
operation reads the store and appends to the task queue; the response is
produced as soon as both jobs are enqueued, so job completion never
enters the picture. -/
def move_content (w : World) (ns name version source_path dest_path : String) :
    Except MoveError MoveResponse × World :=
  let vs := version_str ns name version
  match getCollectionVersion w.store ns name version with
  | none => (.error ⟨.notFound, "Collection " ++ vs ++ " not found"⟩, w)
  | some collection_version =>
    match getDistribution w.store source_path, getDistribution w.store dest_path with
    | some srcDist, some destDist =>
      let src_repo := srcDist.repository
      let dest_repo := destDist.repository
      if collection_version.pk ∈ src_repo.latestContent then
        if collection_version.pk ∈ dest_repo.latestContent then
          (.error ⟨.apiException,
            "Collection " ++ vs ++ " already found in destination repo"⟩, w)
        else
          let addRes := _add_content w collection_version dest_repo
          let removeRes := _remove_content addRes.1 collection_version src_repo
          (.ok ⟨[("add_task_id", addRes.2.id), ("remove_task_id", removeRes.2.id)],
            "202"⟩, removeRes.1)
      else
        (.error ⟨.notFound, "Collection " ++ vs ++ " not found in source repo"⟩,
          w)
    | _, _ =>
      (.error ⟨.notFound, "Repo(s) for moving collection " ++ vs ++ " not found"⟩,
        w)

/-- A store is well formed when distributions that reference a repository
with the same pk reference the same repository row (referential identity
of the database). -/
def Store.wf (s : Store) : Prop :=
  ∀ d1 ∈ s.distributions, ∀ d2 ∈ s.distributions,
    d1.repository.pk = d2.repository.pk → d1.repository = d2.repository

/-- The four precondition failures of `move_content`, in the order the
code checks them: the unit does not exist, a path does not resolve, the
unit is absent from the source repository's current version, or the unit
is already in the destination repository's current version. -/
def preconditionFails (s : Store) (ns name version source_path dest_path : String) :
    Prop :=
  getCollectionVersion s ns name version = none ∨
  ∃ cv, getCollectionVersion s ns name version = some cv ∧
    (getDistribution s source_path = none ∨
     getDistribution s dest_path = none ∨
     ∃ sd dd, getDistribution s source_path = some sd ∧
       getDistribution s dest_path = some dd ∧
       (cv.pk ∉ sd.repository.latestContent ∨
        (cv.pk ∈ sd.repository.latestContent ∧
         cv.pk ∈ dd.repository.latestContent)))

section Fixtures

/-- Example content unit `(acme, tool, 1.0.0)` with pk 1. -/
def exCV : CollectionVersion := ⟨1, "acme", "tool", "1.0.0"⟩

/-- Example source repository: pk 10, current version containing pk 1. -/
def exSrcRepo : Repository := ⟨10, [1, 2]⟩

/-- Example destination repository: pk 20, current version without pk 1. -/
def exDestRepo : Repository := ⟨20, [2]⟩

/-- Example store with one unit and two resolvable paths. -/
def exStore : Store :=
  ⟨[exCV], [⟨"src", exSrcRepo⟩, ⟨"dst", exDestRepo⟩]⟩

/-- Example world: the example store and an empty task queue. -/
def exWorld : World := ⟨exStore, []⟩

end Fixtures

/-- Full characterization of the success path: when the unit exists, both
paths resolve, the unit is in the source's current content and not in the
destination's, `move_content` enqueues the add job then the remove job
and answers 202 with their two handles. -/
theorem move_content_ok_spec (w : World) (ns name version sp dp : String)
    (cv : CollectionVersion) (sd dd : AnsibleDistribution)
    (hcv : getCollectionVersion w.store ns name version = some cv)
    (hs : getDistribution w.store sp = some sd)
    (hd : getDistribution w.store dp = some dd)
    (hin : cv.pk ∈ sd.repository.latestContent)
    (hout : cv.pk ∉ dd.repository.latestContent) :
    move_content w ns name version sp dp =
      (.ok ⟨[("add_task_id", w.queue.length),
             ("remove_task_id", w.queue.length + 1)], "202"⟩,
       ⟨w.store,
        w.queue ++
          [⟨.add_content_to_repository, [dd.repository.pk],
             (cv.pk, dd.repository.pk)⟩,
           ⟨.remove_content_from_repository, [sd.repository.pk],
             (cv.pk, sd.repository.pk)⟩]⟩) := by
  simp [move_content, hcv, hs, hd, hin, hout, _add_content, _remove_content,
    enqueue_with_reservation]

/-- Any outcome of the success path satisfies the lookup and membership
conditions: if `move_content` answers `ok`, the unit existed, both paths
resolved, the unit was in the source content and not in the destination
content. -/
theorem move_content_ok_elim (w : World) (ns name version sp dp : String)
    (resp : MoveResponse) (w2 : World)
    (h : move_content w ns name version sp dp = (.ok resp, w2)) :
    ∃ cv sd dd, getCollectionVersion w.store ns name version = some cv ∧
      getDistribution w.store sp = some sd ∧
      getDistribution w.store dp = some dd ∧
      cv.pk ∈ sd.repository.latestContent ∧
      cv.pk ∉ dd.repository.latestContent := by
  unfold move_content at h
  cases hcv : getCollectionVersion w.store ns name version with
  | none => rw [hcv] at h; simp at h
  | some cv =>
    rw [hcv] at h
    cases hs : getDistribution w.store sp with
    | none => rw [hs] at h; simp at h
    | some sd =>
      rw [hs] at h
      cases hd : getDistribution w.store dp with
      | none => rw [hd] at h; simp at h
      | some dd =>
        rw [hd] at h
        by_cases hin : cv.pk ∈ sd.repository.latestContent
        · by_cases hout : cv.pk ∈ dd.repository.latestContent
          · simp [hin, hout] at h
          · exact ⟨cv, sd, dd, rfl, rfl, rfl, hin, hout⟩
        · simp [hin] at h

/-- Fixture: store in which the unit is already in both repositories. -/
def exStoreBoth : Store :=
  ⟨[exCV], [⟨"src", exSrcRepo⟩, ⟨"dst", ⟨20, [1, 2]⟩⟩]⟩

/-- Fixture: world over `exStoreBoth` with an empty queue. -/
def exWorldBoth : World := ⟨exStoreBoth, []⟩

/-- Fixture: store in which two distinct paths resolve to the same
repository, which contains the unit. -/
def exStoreSelf : Store :=
  ⟨[exCV], [⟨"src", exSrcRepo⟩, ⟨"dst", exSrcRepo⟩]⟩

/-- Fixture: world over `exStoreSelf` with an empty queue. -/
def exWorldSelf : World := ⟨exStoreSelf, []⟩

/-- Fixture: store in which the unit exists but is absent from the source
repository's current version. -/
def exStoreNotInSrc : Store :=
  ⟨[exCV], [⟨"src", ⟨10, [2]⟩⟩, ⟨"dst", exDestRepo⟩]⟩

/-- Fixture: world over `exStoreNotInSrc` with an empty queue. -/
def exWorldNotInSrc : World := ⟨exStoreNotInSrc, []⟩

/-- C1: whenever any precondition check of `move_content` fails (unit
missing, a path unresolvable, unit absent from source content, or unit
already in destination content), the operation raises an error and the
world — in particular the task queue — is returned unchanged, so zero
jobs are submitted and no call to `enqueue_with_reservation` happens. -/
theorem move_content_precondition_failure_submits_no_jobs
    (w : World) (ns name version sp dp : String)
    (h : preconditionFails w.store ns name version sp dp) :
    (∃ e, (move_content w ns name version sp dp).1 = .error e) ∧
    (move_content w ns name version sp dp).2 = w := by
  rcases h with hcv | ⟨cv, hcv, hfail⟩
  · simp [move_content, hcv]
  · rcases hfail with hsrc | hdst | ⟨sd, dd, hsrc, hdst, hmem⟩
    · simp [move_content, hcv, hsrc]
    · cases hsrc : getDistribution w.store sp <;>
        simp [move_content, hcv, hsrc, hdst]
    · rcases hmem with hnin | ⟨hin, hdin⟩
      · simp [move_content, hcv, hsrc, hdst, hnin]
      · simp [move_content, hcv, hsrc, hdst, hin, hdin]

/-- Witness for C1 at a concrete input: the unit `(acme, tool, 9.9.9)`
does not exist in `exStore`, and `move_content` errors with the queue
untouched. -/
theorem move_content_precondition_failure_submits_no_jobs_witness :
    preconditionFails exWorld.store "acme" "tool" "9.9.9" "src" "dst" ∧
    ((∃ e, (move_content exWorld "acme" "tool" "9.9.9" "src" "dst").1 = .error e) ∧
     (move_content exWorld "acme" "tool" "9.9.9" "src" "dst").2 = exWorld) :=
  ⟨Or.inl (by decide),
   move_content_precondition_failure_submits_no_jobs exWorld "acme" "tool" "9.9.9"
     "src" "dst" (Or.inl (by decide))⟩

/-- C2: on every successful invocation, the add job (targeting the
repository resolved from `dest_path`) occupies the queue slot directly
before the remove job (targeting the repository resolved from
`source_path`): the final queue is the initial queue with the add job
appended first and the remove job appended second. -/
theorem move_content_add_submitted_before_remove
    (w : World) (ns name version sp dp : String) (resp : MoveResponse)
    (w2 : World)
    (h : move_content w ns name version sp dp = (.ok resp, w2)) :
    ∃ cv sd dd,
      getCollectionVersion w.store ns name version = some cv ∧
      getDistribution w.store sp = some sd ∧
      getDistribution w.store dp = some dd ∧
      w2.queue = w.queue ++
        [⟨.add_content_to_repository, [dd.repository.pk],
           (cv.pk, dd.repository.pk)⟩,
         ⟨.remove_content_from_repository, [sd.repository.pk],
           (cv.pk, sd.repository.pk)⟩] := by
  obtain ⟨cv, sd, dd, hcv, hsrc, hdst, hin, hout⟩ :=
    move_content_ok_elim w ns name version sp dp resp w2 h
  refine ⟨cv, sd, dd, hcv, hsrc, hdst, ?_⟩
  rw [move_content_ok_spec w ns name version sp dp cv sd dd hcv hsrc hdst hin hout]
    at h
  simp only [Prod.mk.injEq] at h
  rw [← h.2]

/-- Witness for C2 at a concrete input: moving `(acme, tool, 1.0.0)` from
`src` to `dst` in `exWorld` succeeds and both jobs sit in order in the
queue. -/
theorem move_content_add_submitted_before_remove_witness :
    move_content exWorld "acme" "tool" "1.0.0" "src" "dst" =
      (.ok ⟨[("add_task_id", 0), ("remove_task_id", 1)], "202"⟩,
       ⟨exStore, [⟨.add_content_to_repository, [20], (1, 20)⟩,
                  ⟨.remove_content_from_repository, [10], (1, 10)⟩]⟩) ∧
    (∃ cv sd dd,
      getCollectionVersion exWorld.store "acme" "tool" "1.0.0" = some cv ∧
      getDistribution exWorld.store "src" = some sd ∧
      getDistribution exWorld.store "dst" = some dd ∧
      (⟨exStore, [⟨.add_content_to_repository, [20], (1, 20)⟩,
                  ⟨.remove_content_from_repository, [10], (1, 10)⟩]⟩ : World).queue =
        exWorld.queue ++
          [⟨.add_content_to_repository, [dd.repository.pk],
             (cv.pk, dd.repository.pk)⟩,
           ⟨.remove_content_from_repository, [sd.repository.pk],
             (cv.pk, sd.repository.pk)⟩]) :=
  ⟨rfl, move_content_add_submitted_before_remove exWorld "acme" "tool" "1.0.0"
    "src" "dst" _ _ rfl⟩

/-- C3: when the unit exists, both paths resolve, the unit is in the
source content and also already in the destination content, the operation
fails with the `APIException` class — distinct from `NotFound` — whose
message reads "... already found in destination repo", surfacing (per the
spec's taxonomy, see `errHttpStatus`) as a 4xx client error, and the
world is unchanged, so no jobs are submitted. -/
theorem move_content_conflict_on_already_in_destination
    (w : World) (ns name version sp dp : String) (cv : CollectionVersion)
    (sd dd : AnsibleDistribution)
    (hcv : getCollectionVersion w.store ns name version = some cv)
    (hsrc : getDistribution w.store sp = some sd)
    (hdst : getDistribution w.store dp = some dd)
    (hin : cv.pk ∈ sd.repository.latestContent)
    (hdin : cv.pk ∈ dd.repository.latestContent) :
    move_content w ns name version sp dp =
      (.error ⟨.apiException,
        "Collection " ++ version_str ns name version ++
          " already found in destination repo"⟩, w) ∧
    ErrKind.apiException ≠ ErrKind.notFound ∧
    400 ≤ errHttpStatus .apiException ∧ errHttpStatus .apiException < 500 := by
  refine ⟨?_, by decide, by decide, by decide⟩
  simp [move_content, version_str, hcv, hsrc, hdst, hin, hdin]

/-- Witness for C3 at a concrete input: in `exWorldBoth` the unit is in
both repositories and the conflict error is raised with no submission. -/
theorem move_content_conflict_on_already_in_destination_witness :
    getCollectionVersion exWorldBoth.store "acme" "tool" "1.0.0" = some exCV ∧
    getDistribution exWorldBoth.store "src" = some ⟨"src", exSrcRepo⟩ ∧
    getDistribution exWorldBoth.store "dst" = some ⟨"dst", ⟨20, [1, 2]⟩⟩ ∧
    exCV.pk ∈ exSrcRepo.latestContent ∧
    exCV.pk ∈ (⟨20, [1, 2]⟩ : Repository).latestContent ∧
    (move_content exWorldBoth "acme" "tool" "1.0.0" "src" "dst" =
      (.error ⟨.apiException,
        "Collection " ++ version_str "acme" "tool" "1.0.0" ++
          " already found in destination repo"⟩, exWorldBoth) ∧
     ErrKind.apiException ≠ ErrKind.notFound ∧
     400 ≤ errHttpStatus .apiException ∧ errHttpStatus .apiException < 500) :=
  ⟨rfl, rfl, rfl, by decide, by decide,
   move_content_conflict_on_already_in_destination exWorldBoth "acme" "tool"
     "1.0.0" "src" "dst" exCV ⟨"src", exSrcRepo⟩ ⟨"dst", ⟨20, [1, 2]⟩⟩
     rfl rfl rfl (by decide) (by decide)⟩

/-- C4: every successful invocation answers with status `"202"` (the
source passes the literal string `'202'` to `Response`) and a body whose
fields are exactly `add_task_id` and `remove_task_id`, carrying the
handles of the add job and the remove job respectively: each handle is
the queue position at which that job sits, still merely enqueued — the
embedding has no notion of job completion, so the response by
construction never waits on either job. -/
theorem move_content_accepted_response
    (w : World) (ns name version sp dp : String) (resp : MoveResponse)
    (w2 : World)
    (h : move_content w ns name version sp dp = (.ok resp, w2)) :
    resp.status = "202" ∧
    resp.data = [("add_task_id", w.queue.length),
                 ("remove_task_id", w.queue.length + 1)] ∧
    ∃ addJob removeJob : Job,
      w2.queue[w.queue.length]? = some addJob ∧
      w2.queue[w.queue.length + 1]? = some removeJob ∧
      addJob.task = .add_content_to_repository ∧
      removeJob.task = .remove_content_from_repository := by
  obtain ⟨cv, sd, dd, hcv, hsrc, hdst, hin, hout⟩ :=
    move_content_ok_elim w ns name version sp dp resp w2 h
  rw [move_content_ok_spec w ns name version sp dp cv sd dd hcv hsrc hdst hin hout]
    at h
  simp only [Prod.mk.injEq, Except.ok.injEq] at h
  obtain ⟨hresp, hw2⟩ := h
  subst hresp hw2
  refine ⟨rfl, rfl,
    ⟨.add_content_to_repository, [dd.repository.pk], (cv.pk, dd.repository.pk)⟩,
    ⟨.remove_content_from_repository, [sd.repository.pk], (cv.pk, sd.repository.pk)⟩,
    ?_, ?_, rfl, rfl⟩ <;>
  simp [List.getElem?_append_right, List.getElem_append_right]

/-- Witness for C4 at a concrete input: the successful move in `exWorld`
returns status "202" and exactly the two task-id fields. -/
theorem move_content_accepted_response_witness :
    move_content exWorld "acme" "tool" "1.0.0" "src" "dst" =
      (.ok ⟨[("add_task_id", 0), ("remove_task_id", 1)], "202"⟩,
       ⟨exStore, [⟨.add_content_to_repository, [20], (1, 20)⟩,
                  ⟨.remove_content_from_repository, [10], (1, 10)⟩]⟩) ∧
    ((⟨[("add_task_id", 0), ("remove_task_id", 1)], "202"⟩ : MoveResponse).status
        = "202" ∧
     (⟨[("add_task_id", 0), ("remove_task_id", 1)], "202"⟩ : MoveResponse).data =
       [("add_task_id", exWorld.queue.length),
        ("remove_task_id", exWorld.queue.length + 1)] ∧
     ∃ addJob removeJob : Job,
       (⟨exStore, [⟨.add_content_to_repository, [20], (1, 20)⟩,
                   ⟨.remove_content_from_repository, [10], (1, 10)⟩]⟩ : World).queue[exWorld.queue.length]?
         = some addJob ∧
       (⟨exStore, [⟨.add_content_to_repository, [20], (1, 20)⟩,
                   ⟨.remove_content_from_repository, [10], (1, 10)⟩]⟩ : World).queue[exWorld.queue.length + 1]?
         = some removeJob ∧
       addJob.task = .add_content_to_repository ∧
       removeJob.task = .remove_content_from_repository) :=
  ⟨rfl, move_content_accepted_response exWorld "acme" "tool" "1.0.0" "src" "dst"
    _ _ rfl⟩

/-- C5: on every successful invocation over a well-formed store, the add
job carries reservation key set exactly `[destination repository]` and
args `(unit pk, destination repository pk)`, the remove job carries
reservation key set exactly `[source repository]` and args
`(unit pk, source repository pk)`, and the two reservation key sets never
coincide: a successful move implies the two repositories differ. -/
theorem move_content_reservation_keys
    (w : World) (ns name version sp dp : String) (cv : CollectionVersion)
    (sd dd : AnsibleDistribution) (resp : MoveResponse) (w2 : World)
    (hwf : w.store.wf)
    (hcv : getCollectionVersion w.store ns name version = some cv)
    (hsrc : getDistribution w.store sp = some sd)
    (hdst : getDistribution w.store dp = some dd)
    (h : move_content w ns name version sp dp = (.ok resp, w2)) :
    w2.queue = w.queue ++
      [⟨.add_content_to_repository, [dd.repository.pk],
         (cv.pk, dd.repository.pk)⟩,
       ⟨.remove_content_from_repository, [sd.repository.pk],
         (cv.pk, sd.repository.pk)⟩] ∧
    dd.repository.pk ≠ sd.repository.pk := by
  obtain ⟨cv', sd', dd', hcv', hsrc', hdst', hin, hout⟩ :=
    move_content_ok_elim w ns name version sp dp resp w2 h
  rw [hcv] at hcv'; rw [hsrc] at hsrc'; rw [hdst] at hdst'
  obtain ⟨rfl⟩ := Option.some.injEq .. ▸ hcv'
  injection hsrc' with hsd; injection hdst' with hdd
  subst hsd hdd
  constructor
  · rw [move_content_ok_spec w ns name version sp dp cv sd dd hcv hsrc hdst hin hout]
      at h
    simp only [Prod.mk.injEq] at h
    rw [← h.2]
  · intro hpk
    have hmemS : sd ∈ w.store.distributions := List.mem_of_find?_eq_some hsrc
    have hmemD : dd ∈ w.store.distributions := List.mem_of_find?_eq_some hdst
    have := hwf dd hmemD sd hmemS hpk
    rw [← this] at hin
    exact hout hin

/-- Witness for C5 at a concrete input: the successful move in `exWorld`
submits the two jobs with reservation keys `[20]` and `[10]`, and the
keys differ. -/
theorem move_content_reservation_keys_witness :
    exWorld.store.wf ∧
    getCollectionVersion exWorld.store "acme" "tool" "1.0.0" = some exCV ∧
    getDistribution exWorld.store "src" = some ⟨"src", exSrcRepo⟩ ∧
    getDistribution exWorld.store "dst" = some ⟨"dst", exDestRepo⟩ ∧
    move_content exWorld "acme" "tool" "1.0.0" "src" "dst" =
      (.ok ⟨[("add_task_id", 0), ("remove_task_id", 1)], "202"⟩,
       ⟨exStore, [⟨.add_content_to_repository, [20], (1, 20)⟩,
                  ⟨.remove_content_from_repository, [10], (1, 10)⟩]⟩) ∧
    ((⟨exStore, [⟨.add_content_to_repository, [20], (1, 20)⟩,
                 ⟨.remove_content_from_repository, [10], (1, 10)⟩]⟩ : World).queue =
       exWorld.queue ++
         [⟨.add_content_to_repository, [exDestRepo.pk], (exCV.pk, exDestRepo.pk)⟩,
          ⟨.remove_content_from_repository, [exSrcRepo.pk],
            (exCV.pk, exSrcRepo.pk)⟩] ∧
     exDestRepo.pk ≠ exSrcRepo.pk) :=
  ⟨by unfold Store.wf; decide, rfl, rfl, rfl, rfl,
   move_content_reservation_keys exWorld "acme" "tool" "1.0.0" "src" "dst"
     exCV ⟨"src", exSrcRepo⟩ ⟨"dst", exDestRepo⟩ _ _
     (by unfold Store.wf; decide) rfl rfl rfl rfl⟩

/-- C6: when no unit matches the `(namespace, name, version)` key, the
operation fails with `NotFound`, the message embedding the composite key
rendered `namespace-name-version`, the world is unchanged (no job
submitted), and the very same outcome is produced whatever the
distributions table holds — the failure happens before any repository
lookup. -/
theorem move_content_unit_not_found
    (w : World) (ns name version sp dp : String)
    (h : getCollectionVersion w.store ns name version = none) :
    move_content w ns name version sp dp =
      (.error ⟨.notFound,
        "Collection " ++ version_str ns name version ++ " not found"⟩, w) ∧
    ∀ dists : List AnsibleDistribution,
      move_content ⟨⟨w.store.collectionVersions, dists⟩, w.queue⟩
          ns name version sp dp =
        (.error ⟨.notFound,
          "Collection " ++ version_str ns name version ++ " not found"⟩,
         ⟨⟨w.store.collectionVersions, dists⟩, w.queue⟩) := by
  have h' : ∀ dists : List AnsibleDistribution,
      getCollectionVersion ⟨w.store.collectionVersions, dists⟩ ns name version
        = none := by
    intro dists
    simpa [getCollectionVersion] using h
  exact ⟨by simp [move_content, version_str, h],
    fun dists => by simp [move_content, version_str, h' dists]⟩

/-- Witness for C6 at a concrete input: `(acme, missing, 1.0.0)` does not
exist in `exStore` and the move fails with the keyed NotFound message. -/
theorem move_content_unit_not_found_witness :
    getCollectionVersion exWorld.store "acme" "missing" "1.0.0" = none ∧
    (move_content exWorld "acme" "missing" "1.0.0" "src" "dst" =
      (.error ⟨.notFound,
        "Collection " ++ version_str "acme" "missing" "1.0.0" ++ " not found"⟩,
       exWorld) ∧
     ∀ dists : List AnsibleDistribution,
       move_content ⟨⟨exWorld.store.collectionVersions, dists⟩, exWorld.queue⟩
           "acme" "missing" "1.0.0" "src" "dst" =
         (.error ⟨.notFound,
           "Collection " ++ version_str "acme" "missing" "1.0.0" ++ " not found"⟩,
          ⟨⟨exWorld.store.collectionVersions, dists⟩, exWorld.queue⟩)) :=
  ⟨by decide,
   move_content_unit_not_found exWorld "acme" "missing" "1.0.0" "src" "dst"
     (by decide)⟩

/-- C7: when the unit exists but the source path, the destination path,
or both fail to resolve to a distribution, the operation fails with one
and the same `NotFound` error naming the composite key — the message does
not depend on which of the two paths failed — and the world is
unchanged. -/
theorem move_content_repo_not_found
    (w : World) (ns name version sp dp : String) (cv : CollectionVersion)
    (hcv : getCollectionVersion w.store ns name version = some cv)
    (h : getDistribution w.store sp = none ∨ getDistribution w.store dp = none) :
    move_content w ns name version sp dp =
      (.error ⟨.notFound,
        "Repo(s) for moving collection " ++ version_str ns name version ++
          " not found"⟩, w) := by
  rcases h with hsrc | hdst
  · simp [move_content, version_str, hcv, hsrc]
  · cases hsrc : getDistribution w.store sp <;>
      simp [move_content, version_str, hcv, hsrc, hdst]

/-- Witness for C7 at a concrete input: the path `nope` does not resolve
in `exStore` and the move fails with the repo NotFound message. -/
theorem move_content_repo_not_found_witness :
    getCollectionVersion exWorld.store "acme" "tool" "1.0.0" = some exCV ∧
    (getDistribution exWorld.store "nope" = none ∨
     getDistribution exWorld.store "dst" = none) ∧
    move_content exWorld "acme" "tool" "1.0.0" "nope" "dst" =
      (.error ⟨.notFound,
        "Repo(s) for moving collection " ++ version_str "acme" "tool" "1.0.0" ++
          " not found"⟩, exWorld) :=
  ⟨rfl, Or.inl (by decide),
   move_content_repo_not_found exWorld "acme" "tool" "1.0.0" "nope" "dst" exCV
     rfl (Or.inl (by decide))⟩

/-- C8: when the unit exists and both paths resolve but the unit is not
in the source repository's current content, the operation fails with
`NotFound` and the message "... not found in source repo", the world is
unchanged, and that message differs from the conflict message
"... already found in destination repo" built over the same composite
key, so the two failures are textually distinguishable. -/
theorem move_content_not_in_source
    (w : World) (ns name version sp dp : String) (cv : CollectionVersion)
    (sd dd : AnsibleDistribution)
    (hcv : getCollectionVersion w.store ns name version = some cv)
    (hsrc : getDistribution w.store sp = some sd)
    (hdst : getDistribution w.store dp = some dd)
    (hnin : cv.pk ∉ sd.repository.latestContent) :
    move_content w ns name version sp dp =
      (.error ⟨.notFound,
        "Collection " ++ version_str ns name version ++
          " not found in source repo"⟩, w) ∧
    "Collection " ++ version_str ns name version ++ " not found in source repo" ≠
      "Collection " ++ version_str ns name version ++
        " already found in destination repo" := by
  constructor
  · simp [move_content, version_str, hcv, hsrc, hdst, hnin]
  · intro heq
    have hlen := congrArg String.length heq
    have h1 : (" not found in source repo" : String).length = 25 := rfl
    have h2 : (" already found in destination repo" : String).length = 34 := rfl
    simp only [String.length_append, h1, h2] at hlen
    omega

/-- Witness for C8 at a concrete input: in `exWorldNotInSrc` the unit is
missing from the source content and the move fails with the
source-membership NotFound. -/
theorem move_content_not_in_source_witness :
    getCollectionVersion exWorldNotInSrc.store "acme" "tool" "1.0.0" = some exCV ∧
    getDistribution exWorldNotInSrc.store "src" = some ⟨"src", ⟨10, [2]⟩⟩ ∧
    getDistribution exWorldNotInSrc.store "dst" = some ⟨"dst", exDestRepo⟩ ∧
    exCV.pk ∉ (⟨10, [2]⟩ : Repository).latestContent ∧
    (move_content exWorldNotInSrc "acme" "tool" "1.0.0" "src" "dst" =
      (.error ⟨.notFound,
        "Collection " ++ version_str "acme" "tool" "1.0.0" ++
          " not found in source repo"⟩, exWorldNotInSrc) ∧
     "Collection " ++ version_str "acme" "tool" "1.0.0" ++
         " not found in source repo" ≠
       "Collection " ++ version_str "acme" "tool" "1.0.0" ++
         " already found in destination repo") :=
  ⟨rfl, rfl, rfl, by decide,
   move_content_not_in_source exWorldNotInSrc "acme" "tool" "1.0.0" "src" "dst"
     exCV ⟨"src", ⟨10, [2]⟩⟩ ⟨"dst", exDestRepo⟩ rfl rfl rfl (by decide)⟩

/-- C9: the operation never mutates the repository store — the store
component of the world is returned exactly as given, on every path — and
its only effect on the world is appending newly submitted jobs to the
task queue. -/
theorem move_content_store_unchanged (w : World)
    (ns name version sp dp : String) :
    (move_content w ns name version sp dp).2.store = w.store ∧
    ∃ tail, (move_content w ns name version sp dp).2.queue = w.queue ++ tail := by
  unfold move_content
  cases hcv : getCollectionVersion w.store ns name version with
  | none => exact ⟨rfl, [], by simp⟩
  | some cv =>
    cases hsrc : getDistribution w.store sp with
    | none => exact ⟨rfl, [], by simp⟩
    | some sd =>
      cases hdst : getDistribution w.store dp with
      | none => exact ⟨rfl, [], by simp⟩
      | some dd =>
        by_cases hin : cv.pk ∈ sd.repository.latestContent
        · by_cases hdin : cv.pk ∈ dd.repository.latestContent
          · refine ⟨?_, [], ?_⟩ <;> simp [hin, hdin]
          · refine ⟨?_,
              [⟨.add_content_to_repository, [dd.repository.pk],
                 (cv.pk, dd.repository.pk)⟩,
               ⟨.remove_content_from_repository, [sd.repository.pk],
                 (cv.pk, sd.repository.pk)⟩], ?_⟩ <;>
            simp [hin, hdin, _add_content, _remove_content,
              enqueue_with_reservation]
        · refine ⟨?_, [], ?_⟩ <;> simp [hin]

/-- C10: when both paths resolve to the same repository and the unit is
in that repository's current content, the move is rejected with the
"already found in destination repo" conflict and the world is unchanged:
a self-move of a present unit is never accepted. -/
theorem move_content_self_move_rejected
    (w : World) (ns name version sp dp : String) (cv : CollectionVersion)
    (sd dd : AnsibleDistribution)
    (hcv : getCollectionVersion w.store ns name version = some cv)
    (hsrc : getDistribution w.store sp = some sd)
    (hdst : getDistribution w.store dp = some dd)
    (hsame : sd.repository = dd.repository)
    (hin : cv.pk ∈ sd.repository.latestContent) :
    move_content w ns name version sp dp =
      (.error ⟨.apiException,
        "Collection " ++ version_str ns name version ++
          " already found in destination repo"⟩, w) := by
  have hdin : cv.pk ∈ dd.repository.latestContent := hsame ▸ hin
  simp [move_content, version_str, hcv, hsrc, hdst, hin, hdin]

/-- Witness for C10 at a concrete input: in `exWorldSelf` the paths `src`
and `dst` resolve to the same repository containing the unit, and the
move is rejected with the conflict error. -/
theorem move_content_self_move_rejected_witness :
    getCollectionVersion exWorldSelf.store "acme" "tool" "1.0.0" = some exCV ∧
    getDistribution exWorldSelf.store "src" = some ⟨"src", exSrcRepo⟩ ∧
    getDistribution exWorldSelf.store "dst" = some ⟨"dst", exSrcRepo⟩ ∧
    (⟨"src", exSrcRepo⟩ : AnsibleDistribution).repository =
      (⟨"dst", exSrcRepo⟩ : AnsibleDistribution).repository ∧
    exCV.pk ∈ exSrcRepo.latestContent ∧
    move_content exWorldSelf "acme" "tool" "1.0.0" "src" "dst" =
      (.error ⟨.apiException,
        "Collection " ++ version_str "acme" "tool" "1.0.0" ++
          " already found in destination repo"⟩, exWorldSelf) :=
  ⟨rfl, rfl, rfl, rfl, by decide,
   move_content_self_move_rejected exWorldSelf "acme" "tool" "1.0.0" "src" "dst"
     exCV ⟨"src", exSrcRepo⟩ ⟨"dst", exSrcRepo⟩ rfl rfl rfl rfl (by decide)⟩

end GalaxyNG
